import Mathlib

/-!
Shallow embedding of the webhook reply dispatcher in `app.py` of the
ArogyaBOT repository, together with proofs about its acknowledgement,
timeout-fallback, background-delivery and error-handling behaviour.

External collaborators (the reply generator `generate_reply`, the Twilio
REST call `client.messages.create`, HTTP form parsing) are modelled as
oracle parameters: each theorem quantifies over their behaviour.
Durations are rationals; the bounded join `thread.join(timeout=...)`
leaves the probe thread alive exactly when the generation duration
exceeds the budget.
-/

namespace ArogyaBot

/-- Python truthiness of an optional string, as used by
`if not TWILIO_ACCOUNT_SID ...` and `if not to ...`: falsy when the value
is absent (None) or the empty string. -/
def pyTruthy (o : Option String) : Bool :=
  match o with
  | none => false
  | some s => !(s == "")

/-- Drop leading and trailing whitespace from a character list. -/
def stripChars (l : List Char) : List Char :=
  ((l.dropWhile Char.isWhitespace).reverse.dropWhile Char.isWhitespace).reverse

/-- Python `str.strip()` with no arguments: remove surrounding whitespace. -/
def pyStrip (s : String) : String := ⟨stripChars s.data⟩

/-- Outcome of one invocation of the external collaborator
`generate_reply(text, sender)`: it either returns a string or raises. -/
inductive GenOutcome where
  | ok (s : String)
  | raises
deriving DecidableEq, Repr

/-- Behaviour of the probed synchronous generation attempt: its outcome and
how long it runs (in the same time units as GENERATE_TIMEOUT). -/
structure GenBehavior where
  outcome : GenOutcome
  duration : ℚ
deriving DecidableEq, Repr

/-- Process-wide configuration read from the environment in `app.py`:
TWILIO_ACCOUNT_SID, TWILIO_AUTH_TOKEN, TWILIO_WHATSAPP_NUMBER
(None models an unset variable). -/
structure TwilioEnv where
  sid : Option String
  token : Option String
  fromNumber : Option String
deriving DecidableEq, Repr

/-- The constructed Twilio REST client object `Client(sid, token)`.
`tag` models Python object identity: distinct constructor evaluations
yield distinct objects. -/
structure ClientHandle where
  sid : String
  token : String
  tag : Nat
deriving DecidableEq, Repr

/-- `twilio_client()` in `app.py`: lazy initialisation of the global
`_twilio_client`. The input state is the current value of the global,
the output carries the returned client and the updated global. Raises
(`.error`) when the SID or auth token is falsy. -/
def twilio_client (env : TwilioEnv) (st : Option ClientHandle) :
    Except String (ClientHandle × Option ClientHandle) :=
  match st with
  | some c => .ok (c, some c)
  | none =>
    if !pyTruthy env.sid || !pyTruthy env.token then
      .error "Twilio credentials missing"
    else
      let c : ClientHandle := ⟨env.sid.getD "", env.token.getD "", 0⟩
      .ok (c, some c)

/-- One underlying Twilio REST delivery attempt, i.e. one evaluation of
`client.messages.create(body=..., from_=..., to=...)`. -/
structure DeliveryAttempt where
  dest : String
  body : String
deriving DecidableEq, Repr

/-- Result of running (the body of) `send_async_twilio_message`:
the updated global client state, the underlying `messages.create`
invocation attempts that occurred, and whether the code raised to its
caller. -/
structure SendResult where
  st : Option ClientHandle
  attempts : List DeliveryAttempt
  raised : Bool
deriving DecidableEq, Repr

/-- The body of `send_async_twilio_message` without its surrounding
try/except: obtain the shared client, then invoke `messages.create`.
`createRaises` is the oracle for the transport: true means every
`messages.create` call raises. The create attempt is recorded even when
it raises. -/
def send_twilio_body (env : TwilioEnv) (createRaises : Bool)
    (st : Option ClientHandle) (dest body : String) : SendResult :=
  match twilio_client env st with
  | .error _ => ⟨st, [], true⟩
  | .ok (_, st') => ⟨st', [⟨dest, body⟩], createRaises⟩

/-- `send_async_twilio_message(to, body)` in `app.py`: the whole body is
wrapped in `try: ... except Exception: app.logger.exception(...)`, so the
function itself never raises. -/
def send_async_twilio_message (env : TwilioEnv) (createRaises : Bool)
    (st : Option ClientHandle) (dest body : String) : SendResult :=
  let r := send_twilio_body env createRaises st dest body
  ⟨r.st, r.attempts, false⟩

/-- Fixed apology text used by the background fallback task. -/
def bgApologyText : String := "Sorry, I couldn\x27t prepare a reply."

/-- Result of running one background generation+delivery task:
updated client state, the `generate_reply` invocations made (with their
arguments), the calls made to the wrapper `send_async_twilio_message`
(with their arguments), the underlying `messages.create` attempts, and
whether the task body raised (killing its thread). -/
structure BgResult where
  st : Option ClientHandle
  genInvocations : List (String × String)
  notifierCalls : List DeliveryAttempt
  attempts : List DeliveryAttempt
  raised : Bool
deriving DecidableEq, Repr

/-- The nested `wait_and_send` closure in `whatsapp_webhook` (the
fast-path timeout fallback): re-invoke `generate_reply(incoming_msg,
sender)` and pass the result to `send_async_twilio_message`; if either
step raises, send one fixed apology via `send_async_twilio_message`,
and if that also raises, log and give up. `gen2` is the oracle for the
fresh generator invocation. -/
def wait_and_send (env : TwilioEnv) (createRaises : Bool) (gen2 : GenOutcome)
    (st : Option ClientHandle) (text sender : String) : BgResult :=
  match gen2 with
  | .ok generated =>
    let r := send_async_twilio_message env createRaises st sender generated
    if r.raised then
      let r2 := send_async_twilio_message env createRaises r.st sender bgApologyText
      ⟨r2.st, [(text, sender)], [⟨sender, generated⟩, ⟨sender, bgApologyText⟩],
        r.attempts ++ r2.attempts, false⟩
    else
      ⟨r.st, [(text, sender)], [⟨sender, generated⟩], r.attempts, false⟩
  | .raises =>
    let r2 := send_async_twilio_message env createRaises st sender bgApologyText
    ⟨r2.st, [(text, sender)], [⟨sender, bgApologyText⟩], r2.attempts, false⟩

/-- The background task spawned when FAST-REPLY mode is disabled:
`lambda: send_async_twilio_message(sender, generate_reply(incoming_msg, sender))`.
There is no try/except around `generate_reply` here, so if generation
raises the lambda raises and the thread dies with no delivery call. -/
def send_generated_task (env : TwilioEnv) (createRaises : Bool)
    (gen2 : GenOutcome) (st : Option ClientHandle) (text sender : String) :
    BgResult :=
  match gen2 with
  | .ok generated =>
    let r := send_async_twilio_message env createRaises st sender generated
    ⟨r.st, [(text, sender)], [⟨sender, generated⟩], r.attempts, r.raised⟩
  | .raises => ⟨st, [(text, sender)], [], [], true⟩

/-- Per-request configuration of the dispatcher: the FAST_REPLY flag and
the GENERATE_TIMEOUT budget (default 6.0 time-units). -/
structure AppConfig where
  fast_reply : Bool
  generate_timeout : ℚ
deriving DecidableEq, Repr

/-- The form fields of the inbound webhook request that the handler reads:
`Body` (message text) and `From` (sender). `none` models an absent field,
for which `form.get(key, "")` yields the empty string. -/
structure WebhookForm where
  bodyField : Option String
  fromField : Option String
deriving DecidableEq, Repr

/-- A detached background unit of work scheduled by the dispatcher,
identified by which closure is run and its captured arguments. -/
inductive BgTask where
  | waitAndSend (text sender : String)
  | sendGenerated (text sender : String)
deriving DecidableEq, Repr

/-- Result of one run of the webhook handler: the text passed to
`resp.message(...)` (the body of the returned TwiML), the HTTP status,
the background threads started, and the `generate_reply` invocations made
by the synchronous probe thread. -/
structure WebhookResponse where
  message : String
  status : Nat
  bg : List BgTask
  syncGenInvocations : List (String × String)
deriving DecidableEq, Repr

/-- Fixed acknowledgement for empty input. -/
def emptyInputText : String :=
  "Sorry, I didn\x27t get any text. Please send a message."

/-- Fixed acknowledgement for the fast-path timeout fallback. -/
def thinkingText : String :=
  "Got your message — I\x27m thinking and will reply shortly."

/-- Fixed fallback substituted by the probe thread when `generate_reply`
raises. -/
def genApologyText : String :=
  "Sorry, something went wrong while generating the reply."

/-- Fixed acknowledgement when FAST-REPLY mode is disabled. -/
def receivedText : String := "Received — I\x27ll reply shortly."

/-- Fixed safe body returned by the top-level except branch. -/
def serverErrorText : String := "Server error. Please try again later."

/-- The body of `whatsapp_webhook` inside its top-level try: read and
strip `Body`, read `From`; on empty text return the fixed guidance
acknowledgement; otherwise, in fast-path mode, probe `generate_reply` in
a daemon thread joined with timeout GENERATE_TIMEOUT — if the thread is
still alive (duration exceeds the budget) return the fixed thinking text
and start `wait_and_send` in a background thread, else return the probed
reply text; with fast-path disabled, return the fixed received text and
start the bare generation+delivery lambda. `gen1` is the oracle for the
probed generation attempt. -/
def whatsapp_webhook_body (cfg : AppConfig) (gen1 : GenBehavior)
    (form : WebhookForm) : WebhookResponse :=
  let incoming_msg := pyStrip (form.bodyField.getD "")
  let sender := form.fromField.getD ""
  if incoming_msg = "" then
    ⟨emptyInputText, 200, [], []⟩
  else if cfg.fast_reply then
    if cfg.generate_timeout < gen1.duration then
      ⟨thinkingText, 200, [.waitAndSend incoming_msg sender],
        [(incoming_msg, sender)]⟩
    else
      let reply_text :=
        match gen1.outcome with
        | .ok s => s
        | .raises => genApologyText
      ⟨reply_text, 200, [], [(incoming_msg, sender)]⟩
  else
    ⟨receivedText, 200, [.sendGenerated incoming_msg sender], []⟩

/-- `whatsapp_webhook` with its top-level `try/except Exception`: the
`parse` argument models the fallible steps before the body proper
(e.g. `request.values.to_dict()` on malformed input); any fault is
caught, logged, and converted into the fixed safe body with status 500. -/
def whatsapp_webhook (cfg : AppConfig) (gen1 : GenBehavior)
    (parse : Except String WebhookForm) : WebhookResponse :=
  match parse with
  | .error _ => ⟨serverErrorText, 500, [], []⟩
  | .ok form => whatsapp_webhook_body cfg gen1 form

/-- The parsed JSON payload of a POST to the test-trigger endpoint
(`request.get_json(force=True, silent=True) or {}`: a missing or
unparsable payload becomes the empty dict, i.e. both fields absent). -/
structure TestRequest where
  toField : Option String
  bodyField : Option String
deriving DecidableEq, Repr

/-- JSON body returned by the test-trigger endpoint. -/
inductive TestBody where
  | queued
  | errorBody (msg : String)
deriving DecidableEq, Repr

/-- Result of one run of the test-trigger endpoint. -/
structure TestResult where
  respBody : TestBody
  status : Nat
  st : Option ClientHandle
  attempts : List DeliveryAttempt
deriving DecidableEq, Repr

/-- `send_test_message` (`POST /_send_test`): 400 with a fixed error body
when `to` is falsy; otherwise call `send_async_twilio_message` inside a
try whose except branch would return the exception text with status 500
(`send_async_twilio_message` swallows its own faults, so that branch is
reachable only if the call raises). -/
def send_test_message (env : TwilioEnv) (createRaises : Bool)
    (st : Option ClientHandle) (data : TestRequest) : TestResult :=
  let toVal := data.toField
  let body := data.bodyField.getD "test"
  if !pyTruthy toVal then
    ⟨.errorBody "missing \x27to\x27", 400, st, []⟩
  else
    let r := send_async_twilio_message env createRaises st (toVal.getD "") body
    if r.raised then
      ⟨.errorBody "send failed", 500, r.st, r.attempts⟩
    else
      ⟨.queued, 200, r.st, r.attempts⟩

/-- Program counter of one thread executing the body of `twilio_client`.
The source has no lock, so the None-check and the assignment are separate
interleavable steps. -/
inductive TcPhase where
  | start
  | assign
  | finished (ret : Except String ClientHandle)
deriving Repr

/-- Joint state of two threads racing through `twilio_client` on first
use: the global `_twilio_client`, each thread\x27s phase, and how many
`Client(...)` constructor evaluations have occurred. -/
structure RaceState where
  globalClient : Option ClientHandle
  t0 : TcPhase
  t1 : TcPhase
  constructions : Nat
deriving Repr

/-- One step of one thread in `twilio_client`: from `start`, read the
global and either return the cached client, raise on missing credentials,
or move to the assignment step; from `assign`, evaluate `Client(...)`
(a fresh object, tagged by the construction counter) and store it in the
global. -/
def tcStep (env : TwilioEnv) (ph : TcPhase) (g : Option ClientHandle)
    (ctr : Nat) : TcPhase × Option ClientHandle × Nat :=
  match ph with
  | .start =>
    match g with
    | some c => (.finished (.ok c), g, ctr)
    | none =>
      if !pyTruthy env.sid || !pyTruthy env.token then
        (.finished (.error "Twilio credentials missing"), g, ctr)
      else
        (.assign, g, ctr)
  | .assign =>
    let c : ClientHandle := ⟨env.sid.getD "", env.token.getD "", ctr + 1⟩
    (.finished (.ok c), some c, ctr + 1)
  | .finished r => (.finished r, g, ctr)

/-- Advance the chosen thread (false = thread 0, true = thread 1) by one
step. -/
def raceStep (env : TwilioEnv) (s : RaceState) (tid : Bool) : RaceState :=
  if tid then
    let (ph, g, ctr) := tcStep env s.t1 s.globalClient s.constructions
    ⟨g, s.t0, ph, ctr⟩
  else
    let (ph, g, ctr) := tcStep env s.t0 s.globalClient s.constructions
    ⟨g, ph, s.t1, ctr⟩

/-- Run a schedule (list of thread choices) from a state. -/
def raceRun (env : TwilioEnv) (s : RaceState) (sched : List Bool) :
    RaceState :=
  sched.foldl (raceStep env) s

/-- Both threads at the start, global unset, no constructions yet. -/
def raceInit : RaceState := ⟨none, .start, .start, 0⟩

/-- C1: on non-empty trimmed text with fast-path mode enabled and the
probed generation still running when the budget elapses, the handler
returns the fixed thinking acknowledgement with status 200 and schedules
exactly one `wait_and_send` background task carrying the same text and
sender; that task freshly re-invokes the generator on (text, sender)
(its delivered body is the fresh invocation\x27s output `g2`, whatever
the timed-out attempt `gen1` would have produced) and then calls the
Notifier wrapper once with the sender and the generated text. -/
theorem webhook_timeout_thinking_ack_and_fresh_background_delivery
    (cfg : AppConfig) (gen1 : GenBehavior) (form : WebhookForm)
    (env : TwilioEnv) (cr : Bool) (st : Option ClientHandle) (g2 : String)
    (hmsg : pyStrip (form.bodyField.getD "") ≠ "")
    (hfast : cfg.fast_reply = true)
    (htime : cfg.generate_timeout < gen1.duration) :
    whatsapp_webhook cfg gen1 (.ok form) =
      ⟨thinkingText, 200,
        [.waitAndSend (pyStrip (form.bodyField.getD "")) (form.fromField.getD "")],
        [(pyStrip (form.bodyField.getD ""), form.fromField.getD "")]⟩
    ∧ (wait_and_send env cr (.ok g2) st (pyStrip (form.bodyField.getD ""))
        (form.fromField.getD "")).genInvocations =
      [(pyStrip (form.bodyField.getD ""), form.fromField.getD "")]
    ∧ (wait_and_send env cr (.ok g2) st (pyStrip (form.bodyField.getD ""))
        (form.fromField.getD "")).notifierCalls =
      [⟨form.fromField.getD "", g2⟩] := by
  refine ⟨?_, ?_, ?_⟩
  · simp [whatsapp_webhook, whatsapp_webhook_body, hmsg, hfast, htime]
  · simp [wait_and_send, send_async_twilio_message]
  · simp [wait_and_send, send_async_twilio_message]

/-- Witness for C1 at a concrete input: text "hello", sender
"whatsapp:+19", budget 6, probed generation running for 10 units. -/
theorem webhook_timeout_thinking_ack_and_fresh_background_delivery_witness :
    whatsapp_webhook ⟨true, 6⟩ ⟨.ok "slow", 10⟩
        (.ok ⟨some "hello", some "whatsapp:+19"⟩) =
      ⟨thinkingText, 200,
        [.waitAndSend (pyStrip ((some "hello").getD ""))
          ((some "whatsapp:+19").getD "")],
        [(pyStrip ((some "hello").getD ""), (some "whatsapp:+19").getD "")]⟩
    ∧ (wait_and_send ⟨some "AC1", some "tok", some "whatsapp:+14150000000"⟩
        false (.ok "fresh answer") none (pyStrip ((some "hello").getD ""))
        ((some "whatsapp:+19").getD "")).genInvocations =
      [(pyStrip ((some "hello").getD ""), (some "whatsapp:+19").getD "")]
    ∧ (wait_and_send ⟨some "AC1", some "tok", some "whatsapp:+14150000000"⟩
        false (.ok "fresh answer") none (pyStrip ((some "hello").getD ""))
        ((some "whatsapp:+19").getD "")).notifierCalls =
      [⟨(some "whatsapp:+19").getD "", "fresh answer"⟩] :=
  webhook_timeout_thinking_ack_and_fresh_background_delivery
    ⟨true, 6⟩ ⟨.ok "slow", 10⟩ ⟨some "hello", some "whatsapp:+19"⟩
    ⟨some "AC1", some "tok", some "whatsapp:+14150000000"⟩ false none
    "fresh answer" (by decide) rfl (by norm_num)

/-- C2: on non-empty trimmed text with fast-path mode enabled, if the
probed generator returns `r` within the budget, the synchronous
acknowledgement embeds exactly `r` and no background task is spawned. -/
theorem webhook_fast_success_embeds_generator_output
    (cfg : AppConfig) (gen1 : GenBehavior) (form : WebhookForm) (r : String)
    (hmsg : pyStrip (form.bodyField.getD "") ≠ "")
    (hfast : cfg.fast_reply = true)
    (hdur : gen1.duration ≤ cfg.generate_timeout)
    (hout : gen1.outcome = .ok r) :
    whatsapp_webhook cfg gen1 (.ok form) =
      ⟨r, 200, [],
        [(pyStrip (form.bodyField.getD ""), form.fromField.getD "")]⟩ := by
  simp [whatsapp_webhook, whatsapp_webhook_body, hmsg, hfast,
    not_lt.mpr hdur, hout]

/-- Witness for C2: generator returns "hi there" in 0.1 units against a
budget of 6. -/
theorem webhook_fast_success_embeds_generator_output_witness :
    whatsapp_webhook ⟨true, 6⟩ ⟨.ok "hi there", 1 / 10⟩
        (.ok ⟨some "hello", some "whatsapp:+19"⟩) =
      ⟨"hi there", 200, [],
        [(pyStrip ((some "hello").getD ""), (some "whatsapp:+19").getD "")]⟩ :=
  webhook_fast_success_embeds_generator_output
    ⟨true, 6⟩ ⟨.ok "hi there", 1 / 10⟩ ⟨some "hello", some "whatsapp:+19"⟩
    "hi there" (by decide) rfl (by norm_num) rfl

/-- C3 counterexample: with credentials present and a transport whose
every `messages.create` call raises, a `wait_and_send` background task
whose generation succeeds makes exactly ONE underlying Notifier
invocation attempt, not the two the claim asserts: the wrapper
`send_async_twilio_message` swallows the delivery failure, so the
apology delivery is never attempted. -/
theorem wait_and_send_two_attempts_refuted :
    (wait_and_send ⟨some "AC1", some "tok", some "whatsapp:+14150000000"⟩
      true (.ok "hi") none "hello" "whatsapp:+19998887777").attempts =
      [⟨"whatsapp:+19998887777", "hi"⟩]
    ∧ (wait_and_send ⟨some "AC1", some "tok", some "whatsapp:+14150000000"⟩
        true (.ok "hi") none "hello" "whatsapp:+19998887777").attempts.length
        ≠ 2 := by
  refine ⟨rfl, by decide⟩

/-- C3 amended: if every underlying delivery call raises (and the
client credentials are available), exactly ONE underlying Notifier
invocation attempt occurs per `wait_and_send` background task — the
result delivery when generation succeeds, or the single apology delivery
when generation raises — never two or more, because the delivery wrapper
absorbs the transport failure before the apology branch could see it. -/
theorem wait_and_send_exactly_one_delivery_attempt
    (env : TwilioEnv) (cr : Bool) (gen2 : GenOutcome)
    (st : Option ClientHandle) (text sender : String)
    (hsid : pyTruthy env.sid = true) (htok : pyTruthy env.token = true) :
    (wait_and_send env cr gen2 st text sender).attempts.length = 1 := by
  cases gen2 <;> cases st <;>
    simp [wait_and_send, send_async_twilio_message, send_twilio_body,
      twilio_client, hsid, htok]

/-- Witness for the amended C3 at a concrete always-raising transport. -/
theorem wait_and_send_exactly_one_delivery_attempt_witness :
    (wait_and_send ⟨some "AC1", some "tok", some "whatsapp:+14150000000"⟩
      true .raises none "hello" "whatsapp:+19998887777").attempts.length
      = 1 :=
  wait_and_send_exactly_one_delivery_attempt
    ⟨some "AC1", some "tok", some "whatsapp:+14150000000"⟩ true .raises none
    "hello" "whatsapp:+19998887777" rfl rfl

/-- C4 counterexample: with the required Twilio credentials absent (so
delivery construction fails inside the wrapper), the test-trigger
endpoint still answers `queued` with status 200, not the 500 the claim
asserts: `send_async_twilio_message` swallows the construction failure,
so the endpoint\x27s 500 branch is unreachable. -/
theorem send_test_queued_despite_construction_failure :
    (send_test_message ⟨none, none, some "whatsapp:+14150000000"⟩ false none
      ⟨some "whatsapp:+19998887777", some "hi"⟩).respBody = .queued
    ∧ (send_test_message ⟨none, none, some "whatsapp:+14150000000"⟩ false
        none ⟨some "whatsapp:+19998887777", some "hi"⟩).status = 200
    ∧ (send_test_message ⟨none, none, some "whatsapp:+14150000000"⟩ false
        none ⟨some "whatsapp:+19998887777", some "hi"⟩).status ≠ 500 := by
  refine ⟨rfl, rfl, by decide⟩

/-- C4 amended: the test-trigger endpoint returns the fixed 400 error
body exactly when the `to` field is falsy (absent or empty), returns
`queued` with status 200 whenever `to` is truthy — even when delivery
construction fails, since the wrapper swallows that failure — and never
returns status 500. -/
theorem send_test_message_status_routing
    (env : TwilioEnv) (cr : Bool) (st : Option ClientHandle)
    (data : TestRequest) :
    (send_test_message env cr st data).status ≠ 500
    ∧ (pyTruthy data.toField = false →
        send_test_message env cr st data =
          ⟨.errorBody "missing \x27to\x27", 400, st, []⟩)
    ∧ (pyTruthy data.toField = true →
        (send_test_message env cr st data).respBody = .queued
        ∧ (send_test_message env cr st data).status = 200) := by
  by_cases h : pyTruthy data.toField = true
  · refine ⟨?_, ?_, ?_⟩
    · simp [send_test_message, send_async_twilio_message, h]
    · intro hc; rw [h] at hc; cases hc
    · intro _; constructor <;>
        simp [send_test_message, send_async_twilio_message, h]
  · have h' : pyTruthy data.toField = false := by
      cases hb : pyTruthy data.toField
      · rfl
      · exact absurd hb h
    refine ⟨?_, ?_, ?_⟩
    · simp [send_test_message, h']
    · intro _; simp [send_test_message, h']
    · intro hc; rw [h'] at hc; cases hc

/-- Witness for the amended C4: a request with a truthy `to` field and
no credentials configured. -/
theorem send_test_message_status_routing_witness :
    (send_test_message ⟨none, none, some "whatsapp:+14150000000"⟩ false none
      ⟨some "whatsapp:+19998887777", none⟩).respBody = .queued
    ∧ (send_test_message ⟨none, none, some "whatsapp:+14150000000"⟩ false
        none ⟨some "whatsapp:+19998887777", none⟩).status = 200 :=
  (send_test_message_status_routing ⟨none, none, some "whatsapp:+14150000000"⟩
    false none ⟨some "whatsapp:+19998887777", none⟩).2.2 rfl

/-- C5: on non-empty trimmed text with fast-path mode enabled, if the
probed generator raises before the budget elapses, the synchronous
acknowledgement is the fixed generation apology with status 200 (the
probe thread\x27s except branch converts the fault; no exception escapes
the generation unit, as the handler is a total function into
`WebhookResponse`). -/
theorem webhook_fast_generation_fault_apology
    (cfg : AppConfig) (gen1 : GenBehavior) (form : WebhookForm)
    (hmsg : pyStrip (form.bodyField.getD "") ≠ "")
    (hfast : cfg.fast_reply = true)
    (hdur : gen1.duration ≤ cfg.generate_timeout)
    (hout : gen1.outcome = .raises) :
    whatsapp_webhook cfg gen1 (.ok form) =
      ⟨genApologyText, 200, [],
        [(pyStrip (form.bodyField.getD ""), form.fromField.getD "")]⟩ := by
  simp [whatsapp_webhook, whatsapp_webhook_body, hmsg, hfast,
    not_lt.mpr hdur, hout]

/-- Witness for C5: generator raising after 1 unit against a budget of
6. -/
theorem webhook_fast_generation_fault_apology_witness :
    whatsapp_webhook ⟨true, 6⟩ ⟨.raises, 1⟩
        (.ok ⟨some "hello", some "whatsapp:+19"⟩) =
      ⟨genApologyText, 200, [],
        [(pyStrip ((some "hello").getD ""), (some "whatsapp:+19").getD "")]⟩ :=
  webhook_fast_generation_fault_apology ⟨true, 6⟩ ⟨.raises, 1⟩
    ⟨some "hello", some "whatsapp:+19"⟩ (by decide) rfl (by norm_num) rfl

/-- C6: when the message text is empty or whitespace-only after trimming,
the handler returns the fixed guidance acknowledgement with status 200,
makes no generator invocation, and spawns no background task. -/
theorem webhook_empty_input_guidance
    (cfg : AppConfig) (gen1 : GenBehavior) (form : WebhookForm)
    (hmsg : pyStrip (form.bodyField.getD "") = "") :
    whatsapp_webhook cfg gen1 (.ok form) = ⟨emptyInputText, 200, [], []⟩ := by
  simp [whatsapp_webhook, whatsapp_webhook_body, hmsg]

/-- Witness for C6 on the whitespace-only input "  ". -/
theorem webhook_empty_input_guidance_witness :
    whatsapp_webhook ⟨true, 6⟩ ⟨.ok "x", 1⟩ (.ok ⟨some "  ", none⟩) =
      ⟨emptyInputText, 200, [], []⟩ :=
  webhook_empty_input_guidance ⟨true, 6⟩ ⟨.ok "x", 1⟩ ⟨some "  ", none⟩
    (by decide)

/-- C7 counterexample: in the task spawned when fast-path mode is
disabled, the generator call is NOT wrapped in a try/except; when
generation raises, the task makes ZERO Notifier calls (the thread dies),
not the single apology call the claim asserts. -/
theorem background_task_no_apology_when_generation_raises :
    (send_generated_task ⟨some "AC1", some "tok", some "whatsapp:+14150000000"⟩
      false .raises none "hello" "whatsapp:+19").notifierCalls = []
    ∧ (send_generated_task ⟨some "AC1", some "tok",
        some "whatsapp:+14150000000"⟩ false .raises none "hello"
        "whatsapp:+19").raised = true
    ∧ (send_generated_task ⟨some "AC1", some "tok",
        some "whatsapp:+14150000000"⟩ false .raises none "hello"
        "whatsapp:+19").notifierCalls.length ≠ 1 := by
  refine ⟨rfl, rfl, by decide⟩

/-- C7 amended: with fast-path mode disabled and non-empty trimmed text,
the handler immediately returns the fixed received acknowledgement with
status 200 and spawns exactly one background task; that task invokes the
generator once and passes its output to the Notifier wrapper — but it has
no apology path: if generation raises the task raises and makes no
Notifier call, and a delivery failure is swallowed inside the wrapper
with no apology delivery either. -/
theorem webhook_slow_path_ack_and_single_invocation_task
    (cfg : AppConfig) (gen1 : GenBehavior) (form : WebhookForm)
    (env : TwilioEnv) (cr : Bool) (st : Option ClientHandle) (g : String)
    (hmsg : pyStrip (form.bodyField.getD "") ≠ "")
    (hslow : cfg.fast_reply = false) :
    whatsapp_webhook cfg gen1 (.ok form) =
      ⟨receivedText, 200,
        [.sendGenerated (pyStrip (form.bodyField.getD ""))
          (form.fromField.getD "")], []⟩
    ∧ (send_generated_task env cr (.ok g) st (pyStrip (form.bodyField.getD ""))
        (form.fromField.getD "")).genInvocations =
      [(pyStrip (form.bodyField.getD ""), form.fromField.getD "")]
    ∧ (send_generated_task env cr (.ok g) st (pyStrip (form.bodyField.getD ""))
        (form.fromField.getD "")).notifierCalls =
      [⟨form.fromField.getD "", g⟩]
    ∧ (send_generated_task env cr .raises st (pyStrip (form.bodyField.getD ""))
        (form.fromField.getD "")).notifierCalls = []
    ∧ (send_generated_task env cr .raises st (pyStrip (form.bodyField.getD ""))
        (form.fromField.getD "")).raised = true := by
  refine ⟨?_, ?_, ?_, ?_, ?_⟩ <;>
    simp [whatsapp_webhook, whatsapp_webhook_body, hmsg, hslow,
      send_generated_task, send_async_twilio_message]

/-- Witness for the amended C7 at a concrete input. -/
theorem webhook_slow_path_ack_and_single_invocation_task_witness :
    whatsapp_webhook ⟨false, 6⟩ ⟨.ok "x", 1⟩
        (.ok ⟨some "hello", some "whatsapp:+19"⟩) =
      ⟨receivedText, 200,
        [.sendGenerated (pyStrip ((some "hello").getD ""))
          ((some "whatsapp:+19").getD "")], []⟩
    ∧ (send_generated_task ⟨some "AC1", some "tok",
        some "whatsapp:+14150000000"⟩ false (.ok "an answer") none
        (pyStrip ((some "hello").getD ""))
        ((some "whatsapp:+19").getD "")).genInvocations =
      [(pyStrip ((some "hello").getD ""), (some "whatsapp:+19").getD "")]
    ∧ (send_generated_task ⟨some "AC1", some "tok",
        some "whatsapp:+14150000000"⟩ false (.ok "an answer") none
        (pyStrip ((some "hello").getD ""))
        ((some "whatsapp:+19").getD "")).notifierCalls =
      [⟨(some "whatsapp:+19").getD "", "an answer"⟩]
    ∧ (send_generated_task ⟨some "AC1", some "tok",
        some "whatsapp:+14150000000"⟩ false .raises none
        (pyStrip ((some "hello").getD ""))
        ((some "whatsapp:+19").getD "")).notifierCalls = []
    ∧ (send_generated_task ⟨some "AC1", some "tok",
        some "whatsapp:+14150000000"⟩ false .raises none
        (pyStrip ((some "hello").getD ""))
        ((some "whatsapp:+19").getD "")).raised = true :=
  webhook_slow_path_ack_and_single_invocation_task ⟨false, 6⟩ ⟨.ok "x", 1⟩
    ⟨some "hello", some "whatsapp:+19"⟩
    ⟨some "AC1", some "tok", some "whatsapp:+14150000000"⟩ false none
    "an answer" (by decide) rfl

/-- C8: whatever fault the fallible pre-body steps raise, the top-level
except branch converts it into the fixed safe body with status 500, no
background work, and no dependence on the fault\x27s content (the result
is the same constant for every fault string, so no internal detail can
appear in the response). -/
theorem webhook_top_level_fault_safe_response
    (cfg : AppConfig) (gen1 : GenBehavior) (e : String) :
    whatsapp_webhook cfg gen1 (.error e) =
      ⟨serverErrorText, 500, [], []⟩ := rfl

/-- C9 counterexample: with no initialization lock, the interleaving in
which both threads pass the None-check before either assigns makes the
`Client(...)` constructor run twice (refuting construction at most once
per process), and the global ends up holding the second thread\x27s
client while the first thread saw a different one (refuting first
concurrent caller wins). -/
theorem twilio_client_unsynchronized_double_construction :
    (raceRun ⟨some "AC1", some "tok", some "whatsapp:+14150000000"⟩ raceInit
      [false, true, false, true]).constructions = 2
    ∧ ¬ ((raceRun ⟨some "AC1", some "tok", some "whatsapp:+14150000000"⟩
        raceInit [false, true, false, true]).constructions ≤ 1)
    ∧ (raceRun ⟨some "AC1", some "tok", some "whatsapp:+14150000000"⟩
        raceInit [false, true, false, true]).globalClient =
      some ⟨"AC1", "tok", 2⟩
    ∧ (raceRun ⟨some "AC1", some "tok", some "whatsapp:+14150000000"⟩
        raceInit [false, true, false, true]).t0 =
      .finished (.ok ⟨"AC1", "tok", 1⟩) := by
  refine ⟨rfl, by decide, rfl, rfl⟩

/-- C9 amended: the client handle is lazily constructed and cached in an
unsynchronized global — once the global is populated every later caller
gets the cached handle with no new construction, and first use fails
hard with the fixed error when the account identifier or token is falsy;
there is no initialization lock, so concurrent first use can construct
more than once, with the last concurrent writer\x27s handle cached. -/
theorem twilio_client_sequential_caching_and_fail_hard :
    (∀ (env : TwilioEnv) (c : ClientHandle),
      twilio_client env (some c) = .ok (c, some c))
    ∧ (∀ env : TwilioEnv,
        pyTruthy env.sid = false ∨ pyTruthy env.token = false →
        twilio_client env none = .error "Twilio credentials missing") := by
  constructor
  · intro env c; rfl
  · intro env h
    rcases h with h | h <;> simp [twilio_client, h]

/-- Witness for the amended C9: credentials absent fails hard. -/
theorem twilio_client_sequential_caching_and_fail_hard_witness :
    twilio_client ⟨none, none, some "whatsapp:+14150000000"⟩ none =
      .error "Twilio credentials missing" :=
  twilio_client_sequential_caching_and_fail_hard.2
    ⟨none, none, some "whatsapp:+14150000000"⟩ (Or.inl rfl)

/-- C10: `send_async_twilio_message` never raises to its caller, for
every credential configuration, transport behaviour, client state and
message — its catch-all except absorbs both the missing-credentials
construction failure and the transport failure; consequently, in
`wait_and_send`, when generation succeeds the apology branch is
unreachable: exactly one wrapper call is made (the result delivery) and
the task never raises, whatever the delivery outcome. -/
theorem send_async_never_raises :
    (∀ (env : TwilioEnv) (cr : Bool) (st : Option ClientHandle)
      (dest body : String),
      (send_async_twilio_message env cr st dest body).raised = false)
    ∧ (∀ (env : TwilioEnv) (cr : Bool) (st : Option ClientHandle)
        (text sender g : String),
        (wait_and_send env cr (.ok g) st text sender).notifierCalls =
          [⟨sender, g⟩]
        ∧ (wait_and_send env cr (.ok g) st text sender).raised = false) := by
  constructor
  · intro env cr st dest body; rfl
  · intro env cr st text sender g
    constructor <;> simp [wait_and_send, send_async_twilio_message]

end ArogyaBot
